import Mathlib

/-!
Verification development for the anime-catalog CLI (`src/main.rs`).

The Rust program is shallowly embedded below:
* the serde data model (`AnimeResponse`, `AnimeData`, `AnimeAttributes`)
  becomes Lean structures, with `u16` modelled as `Nat` bounded at decode
  time;
* `display_anime_results` (the text renderer) becomes a pure function from
  the terminal width and the entry list to the list of printed strings,
  one list element per `println!` call; ANSI colour styling (`.green()`,
  `.cyan()`, ...) wraps the text in escape codes and is elided, the text
  content is kept verbatim; a `println!` whose format string starts with
  an explicit `\n` keeps that newline character inside its element.
  A Rust panic (unsigned-subtraction underflow in the synopsis cap) is
  modelled as `none`;
* `render_search_tab` / `render_details_tab` become functions from the
  `App` state to a small view type recording which widget the function
  renders and with what text;
* `search_anime` becomes a function parameterised by a network oracle
  `net : Request → Except String Json`; it returns the list of requests
  issued (to state that exactly one request is made, never retried)
  together with the `Result`.  Deserialization of the JSON body follows
  serde semantics for the derived structs: required fields error when
  missing, `Option` fields accept `null`/absent, unknown fields are
  ignored, and `u16` rejects integers outside `[0, 65535]`.  JSON numbers
  are modelled as integers (the schema's only numeric field is an
  integer count).
-/

/-- Attributes of one catalog entry (struct `AnimeAttributes`, main.rs:49-63).
The Rust field is spelled `cononical_title` (serde-renamed from
`canonicalTitle`); `episode_count` is `Option<u16>`, modelled as `Option Nat`
with the 16-bit bound enforced by the decoder. -/
structure AnimeAttributes where
  cononical_title : String
  synopsis : Option String
  average_rating : Option String
  start_date : Option String
  end_date : Option String
  status : Option String
  episode_count : Option Nat
deriving Repr, DecidableEq

/-- One catalog entry (struct `AnimeData`, main.rs:43-47). -/
structure AnimeData where
  id : String
  attributes : AnimeAttributes
deriving Repr, DecidableEq

/-- Top-level response (struct `AnimeResponse`, main.rs:38-41). -/
structure AnimeResponse where
  data : List AnimeData
deriving Repr, DecidableEq

/-- Interactive-viewer state (struct `App`, main.rs:65-72), restricted to the
fields the two render functions read (`input_mode` and `active_tab` select
which render function runs and are not read inside them). -/
structure App where
  input : String
  search_results : List AnimeData
  selected_anime_index : Option Nat
  loading : Bool

/-- Header / separator rule of the text renderer: a character repeated
`width.min(100)` times (main.rs:268 and main.rs:317). -/
def rule (c : Char) (width : Nat) : String :=
  String.mk (List.replicate (min width 100) c)

/-- Synopsis display of `display_anime_results` (main.rs:307-315).
`max_len` is `width.min(100) - 10` on `usize`: when `width.min 100 < 10`
the Rust subtraction underflows (a panic under debug assertions, a wrap to
near `2^64` in release so that no truncation happens); the underflow is
modelled as `none`.  Rust `synopsis.len()` and `&synopsis[..max_len]`
count bytes; the synopsis is modelled as its character list, which agrees
for ASCII text. -/
def dispSynopsis (width : Nat) (synopsis : List Char) : Option (List Char) :=
  if min width 100 < 10 then
    none
  else
    let maxLen := min width 100 - 10
    if synopsis.length > maxLen then
      some (synopsis.take maxLen ++ ['.', '.', '.'])
    else
      some synopsis

/-- The lines printed for one entry by the loop body of
`display_anime_results` (main.rs:270-318), `i` the zero-based loop index.
The `status` match (main.rs:289-294) only picks a colour for the status
text and is elided with the rest of the styling.  `none` models the panic
propagated from the synopsis cap underflow. -/
def entryLines (width i : Nat) (anime : AnimeData) : Option (List String) :=
  let attrs := anime.attributes
  let numbered :=
    toString (i + 1) ++ ". " ++ attrs.cononical_title ++ " (ID: " ++ anime.id ++ ")"
  let ratingL := match attrs.average_rating with
    | some r => ["  Rating: " ++ r ++ "/100"]
    | none => []
  let epsL := match attrs.episode_count with
    | some eps => ["  Episodes: " ++ toString eps]
    | none => []
  let statusL := match attrs.status with
    | some s => ["  Status: " ++ s]
    | none => []
  let airedL := match attrs.start_date with
    | some start => match attrs.end_date with
      | some e => ["  Aired: " ++ start ++ " to " ++ e]
      | none => ["  Aired: " ++ start ++ " to present"]
    | none => []
  let synL : Option (List String) := match attrs.synopsis with
    | some syn => (dispSynopsis width syn.toList).map (fun d => ["  " ++ String.mk d])
    | none => some []
  match synL with
  | none => none
  | some sl =>
      some ([numbered] ++ ratingL ++ epsL ++ statusL ++ airedL ++ sl
        ++ [rule '-' width])

/-- The entry loop of `display_anime_results` (main.rs:270): renders the
entries from loop index `i` on, concatenating their lines; `none` when any
entry panics. -/
def renderEntries (width : Nat) : Nat → List AnimeData → Option (List String)
  | _, [] => some []
  | i, a :: rest =>
    match entryLines width i a, renderEntries width (i + 1) rest with
    | some ls, some more => some (ls ++ more)
    | _, _ => none

/-- `display_anime_results` (main.rs:255-319) as a pure function of the
terminal width (the Rust code queries `terminal_size()` with fallback 80;
the width is injected here) and the entry list, returning the printed
strings in order, one per `println!`. -/
def displayAnimeResults (width : Nat) (anime_list : List AnimeData) :
    Option (List String) :=
  if anime_list.isEmpty then
    some ["No results found."]
  else
    match renderEntries width 0 anime_list with
    | none => none
    | some ls => some (("\nSEARCH RESULTS:" :: rule '=' width :: ls))

/-- What `render_search_tab` (main.rs:107-158) draws into its area. -/
inductive SearchView
  | loadingIndicator
  | helpText (msg : String)
  | resultList (items : List String) (highlighted : Option Nat)
deriving Repr, DecidableEq

/-- One list item of the search-results list (main.rs:133-143):
title plus optional " (<rating>*)" suffix. -/
def searchListItem (anime : AnimeData) : String :=
  let rating := (anime.attributes.average_rating.map
    (fun r => " (" ++ r ++ "*)")).getD ""
  anime.attributes.cononical_title ++ rating

/-- `render_search_tab` (main.rs:107-158). -/
def renderSearchTab (app : App) : SearchView :=
  if app.loading then
    .loadingIndicator
  else if app.search_results.isEmpty then
    .helpText (if app.input.isEmpty then
      "Press 'e' to endter search mode, type your query, and press Enter to search."
    else
      "No results found. Try a different search term.")
  else
    .resultList (app.search_results.map searchListItem) app.selected_anime_index

/-- What `render_details_tab` (main.rs:160-232) draws into its area:
`noneRendered` is the fall-through case (index present but out of range)
where the function returns without rendering any widget. -/
inductive DetailsView
  | placeholder
  | noneRendered
  | details (title : String) (info : String) (synopsis : String)
deriving Repr, DecidableEq

/-- The `info` vector built in `render_details_tab` (main.rs:188-210). -/
def infoSegments (attrs : AnimeAttributes) : List String :=
  (match attrs.average_rating with
    | some r => ["Rating: " ++ r ++ "/100"]
    | none => []) ++
  (match attrs.episode_count with
    | some eps => ["Episodes: " ++ toString eps]
    | none => []) ++
  (match attrs.status with
    | some s => ["Status: " ++ s]
    | none => []) ++
  (match attrs.start_date with
    | some start => match attrs.end_date with
      | some e => ["Aired: " ++ start ++ " to " ++ e]
      | none => ["Aired: " ++ start ++ " to present"]
    | none => [])

/-- `render_details_tab` (main.rs:160-232). -/
def renderDetailsTab (app : App) : DetailsView :=
  match app.selected_anime_index with
  | some selected =>
    if h : selected < app.search_results.length then
      let anime := app.search_results.get ⟨selected, h⟩
      let attrs := anime.attributes
      .details attrs.cononical_title
        (String.intercalate " | " (infoSegments attrs))
        (attrs.synopsis.getD "No synopsis available.")
    else
      .noneRendered
  | none => .placeholder

/-- An outbound HTTP request as `search_anime` builds it (main.rs:237-243). -/
structure Request where
  method : String
  url : String
  headers : List (String × String)
deriving Repr, DecidableEq

/-- The request `search_anime` issues (main.rs:237-242): the query is
interpolated into the URL by `format!` with no percent-encoding. -/
def buildRequest (query : String) : Request :=
  { method := "GET"
    url := "https://kitsu.io/api/edge/anime?filter[text]=" ++ query
    headers := [("Accept", "application/vnd.api+json"),
                ("Content-Type", "application/vnd.api+json")] }

/-- JSON values, with numbers restricted to integers (the schema's only
numeric field, `episodeCount`, is an integer count). -/
inductive Json
  | null
  | bool (b : Bool)
  | num (n : Int)
  | str (s : String)
  | arr (elems : List Json)
  | obj (fields : List (String × Json))

/-- Field lookup in a JSON object (first occurrence of the key). -/
def jLookup (fields : List (String × Json)) (k : String) : Option Json :=
  (fields.find? (fun f => f.1 == k)).map (fun f => f.2)

/-- serde: a required `String` field — missing field or non-string value is
a decode error. -/
def decodeReqString (fields : List (String × Json)) (k : String) :
    Except String String :=
  match jLookup fields k with
  | some (.str s) => .ok s
  | some _ => .error ("invalid type for field " ++ k)
  | none => .error ("missing field " ++ k)

/-- serde: an `Option<String>` field — absent or `null` is `none`, a string
is `some`, anything else a decode error. -/
def decodeOptString (fields : List (String × Json)) (k : String) :
    Except String (Option String) :=
  match jLookup fields k with
  | none => .ok none
  | some .null => .ok none
  | some (.str s) => .ok (some s)
  | some _ => .error ("invalid type for field " ++ k)

/-- serde: an `Option<u16>` field — absent or `null` is `none`, an integer in
`[0, 65535]` is `some`, an out-of-range integer or any other value a decode
error. -/
def decodeOptU16 (fields : List (String × Json)) (k : String) :
    Except String (Option Nat) :=
  match jLookup fields k with
  | none => .ok none
  | some .null => .ok none
  | some (.num n) =>
      if 0 ≤ n ∧ n < 65536 then .ok (some n.toNat)
      else .error ("invalid value for u16 field " ++ k)
  | some _ => .error ("invalid type for field " ++ k)

/-- serde deserialization of `AnimeAttributes` (main.rs:49-63): the renames
map JSON keys `canonicalTitle`, `averageRating`, `startDate`, `endDate`,
`episodeCount` onto the Rust fields; unknown fields are ignored. -/
def decodeAnimeAttributes (j : Json) : Except String AnimeAttributes :=
  match j with
  | .obj fields => do
      let title ← decodeReqString fields "canonicalTitle"
      let synopsis ← decodeOptString fields "synopsis"
      let rating ← decodeOptString fields "averageRating"
      let start ← decodeOptString fields "startDate"
      let endD ← decodeOptString fields "endDate"
      let status ← decodeOptString fields "status"
      let eps ← decodeOptU16 fields "episodeCount"
      .ok ⟨title, synopsis, rating, start, endD, status, eps⟩
  | _ => .error "invalid type: expected AnimeAttributes object"

/-- serde deserialization of `AnimeData` (main.rs:43-47). -/
def decodeAnimeData (j : Json) : Except String AnimeData :=
  match j with
  | .obj fields => do
      let id ← decodeReqString fields "id"
      match jLookup fields "attributes" with
      | some aj => do
          let attrs ← decodeAnimeAttributes aj
          .ok ⟨id, attrs⟩
      | none => .error "missing field attributes"
  | _ => .error "invalid type: expected AnimeData object"

/-- serde deserialization of a JSON array into `Vec<AnimeData>`. -/
def decodeDataList : List Json → Except String (List AnimeData)
  | [] => .ok []
  | j :: rest => do
      let a ← decodeAnimeData j
      let more ← decodeDataList rest
      .ok (a :: more)

/-- serde deserialization of `AnimeResponse` (main.rs:38-41). -/
def decodeAnimeResponse (j : Json) : Except String AnimeResponse :=
  match j with
  | .obj fields =>
      match jLookup fields "data" with
      | some (.arr elems) => do
          let l ← decodeDataList elems
          .ok ⟨l⟩
      | some _ => .error "invalid type for field data"
      | none => .error "missing field data"
  | _ => .error "invalid type: expected AnimeResponse object"

/-- The error taxonomy of `search_anime`: the `.context(..)` call at
main.rs:245 wraps a transport failure, the one at main.rs:250 wraps a
body-deserialization failure. -/
inductive ClientError
  | transport (msg : String)
  | decode (msg : String)
deriving Repr, DecidableEq

/-- `search_anime` (main.rs:234-253), parameterised by a network oracle
`net` mapping a request to either a transport error or a JSON response
body.  The first component records every request issued (the code sends
exactly one and never retries); the second is the returned `Result`. -/
def searchAnime (net : Request → Except String Json) (query : String) :
    List Request × Except ClientError AnimeResponse :=
  let req := buildRequest query
  (⟨[req],
    match net req with
    | .error e => .error (.transport ("Failed to send request to kitsu API: " ++ e))
    | .ok body =>
      match decodeAnimeResponse body with
      | .error e => .error (.decode ("Failed to parse anime data: " ++ e))
      | .ok r => .ok r⟩)

/-- Split a character list at the first occurrence of `c`: the part before,
and `some` the part after (`none` when `c` does not occur). -/
def splitFirst (c : Char) : List Char → List Char × Option (List Char)
  | [] => ([], none)
  | x :: xs =>
    if x = c then ([], some xs)
    else
      let r := splitFirst c xs
      (x :: r.1, r.2)

/-- Split a character list on every occurrence of `c`. -/
def splitOnChar (c : Char) : List Char → List (List Char)
  | [] => [[]]
  | x :: xs =>
    let r := splitOnChar c xs
    if x = c then [] :: r
    else
      match r with
      | [] => [[x]]
      | y :: ys => (x :: y) :: ys

/-- Value of a hexadecimal digit. -/
def hexVal (c : Char) : Option Nat :=
  if '0' ≤ c ∧ c ≤ '9' then some (c.toNat - '0'.toNat)
  else if 'a' ≤ c ∧ c ≤ 'f' then some (c.toNat - 'a'.toNat + 10)
  else if 'A' ≤ c ∧ c ≤ 'F' then some (c.toNat - 'A'.toNat + 10)
  else none

/-- Percent-decoding as a URL parser applies it to a query component:
`%XY` with two hex digits decodes to the byte `16*X + Y`; an invalid or
truncated escape is kept verbatim. -/
def percentDecode : List Char → List Char
  | [] => []
  | x :: rest =>
    if x = '%' then
      match rest with
      | a :: b :: rest2 =>
        match hexVal a, hexVal b with
        | some hi, some lo => Char.ofNat (16 * hi + lo) :: percentDecode rest2
        | _, _ => x :: a :: b :: percentDecode rest2
      | _ => x :: rest
    else x :: percentDecode rest

/-- A URL parser's view of the query string: the portion after the first
`?` and before any `#` fragment, split on `&` into `key=value` pairs
(everything after the first `=`; no `=` means an empty value), both sides
percent-decoded. -/
def queryPairs (url : List Char) : List (List Char × List Char) :=
  match (splitFirst '?' url).2 with
  | none => []
  | some rest =>
    let qs := (splitFirst '#' rest).1
    (splitOnChar '&' qs).map (fun p =>
      let kv := splitFirst '=' p
      (percentDecode kv.1, percentDecode (kv.2.getD [])))

/-- Round-tripping through a URL parser: the decoded value of the first
query parameter named `key`. -/
def getQueryParam (url : List Char) (key : List Char) : Option (List Char) :=
  ((queryPairs url).find? (fun kv => kv.1 == key)).map (fun kv => kv.2)

/-- The Cowboy Bebop entry of the spec's concrete text-renderer test. -/
def cowboyBebop : AnimeData :=
  ⟨"1", ⟨"Cowboy Bebop", none, some "82.4", some "1998-04-03",
    some "1999-04-24", some "finished", some 26⟩⟩

/-- A wire-contract-conforming response whose single entry carries
`episodeCount = n` (and no other optional attribute). -/
def responseWithEpisodeCount (n : Int) : Json :=
  .obj [("data", .arr [.obj [("id", .str "1"),
    ("attributes", .obj [("canonicalTitle", .str "Cowboy Bebop"),
      ("episodeCount", .num n)])]])]

/-! ### Helper lemmas about the URL query parser -/

theorem splitFirst_of_not_mem {c : Char} {l : List Char} (h : c ∉ l) :
    splitFirst c l = (l, none) := by
  induction l with
  | nil => rfl
  | cons x xs ih =>
    have hx : ¬ x = c := fun he => h (he ▸ List.mem_cons_self x xs)
    have hxs : c ∉ xs := fun hm => h (List.mem_cons_of_mem _ hm)
    simp [splitFirst, hx, ih hxs]

theorem splitFirst_append {c : Char} {l₁ l₂ : List Char} (h : c ∉ l₁) :
    splitFirst c (l₁ ++ c :: l₂) = (l₁, some l₂) := by
  induction l₁ with
  | nil => simp [splitFirst]
  | cons x xs ih =>
    have hx : ¬ x = c := fun he => h (he ▸ List.mem_cons_self x xs)
    have hxs : c ∉ xs := fun hm => h (List.mem_cons_of_mem _ hm)
    simp [splitFirst, hx, ih hxs]

theorem splitOnChar_of_not_mem {c : Char} {l : List Char} (h : c ∉ l) :
    splitOnChar c l = [l] := by
  induction l with
  | nil => rfl
  | cons x xs ih =>
    have hx : ¬ x = c := fun he => h (he ▸ List.mem_cons_self x xs)
    have hxs : c ∉ xs := fun hm => h (List.mem_cons_of_mem _ hm)
    simp [splitOnChar, hx, ih hxs]

theorem percentDecode_cons_of_ne {x : Char} (xs : List Char) (hx : ¬ x = '%') :
    percentDecode (x :: xs) = x :: percentDecode xs := by
  cases xs with
  | nil => simp [percentDecode, hx]
  | cons a t =>
    cases t with
    | nil => simp [percentDecode, hx]
    | cons b r => simp [percentDecode, hx]

theorem percentDecode_of_not_mem {l : List Char} (h : '%' ∉ l) :
    percentDecode l = l := by
  induction l with
  | nil => rfl
  | cons x xs ih =>
    have hx : ¬ x = '%' := fun he => h (he ▸ List.mem_cons_self x xs)
    have hxs : '%' ∉ xs := fun hm => h (List.mem_cons_of_mem _ hm)
    rw [percentDecode_cons_of_ne xs hx, ih hxs]

/-! ### Claim theorems -/

/-- C1: the synopsis cap `width.min(100) - 10` of `display_anime_results`
is claimed to clamp to zero (and never panic) when `width.min 100 ≤ 10`;
in fact the unsigned subtraction underflows for every terminal width
below 10: at width 9 with a present synopsis the renderer panics (debug)
or skips truncation entirely (release), modelled as `none`, instead of
printing a zero-character synopsis with an ellipsis marker. -/
theorem synopsis_cap_underflows_for_narrow_width :
    dispSynopsis 9 "ab".toList = none ∧
    displayAnimeResults 9
      [⟨"2", ⟨"T", some "ab", none, none, none, none, none⟩⟩] = none :=
  ⟨rfl, rfl⟩

/-- C2 (counterexample): `search_anime` interpolates the query into the URL
with no percent-encoding, so round-tripping the query `"a&b"` through a
URL parser recovers only `"a"` in `filter[text]`, not the original text. -/
theorem query_roundtrip_fails_on_ampersand :
    ("a&b" : String) ≠ "" ∧
    getQueryParam (buildRequest "a&b").url.toList "filter[text]".toList
      = some "a".toList ∧
    some "a".toList ≠ some "a&b".toList := by
  refine ⟨by decide, by decide, by decide⟩

/-- C2 (amended): for every non-empty query containing no `&`, `%` or `#`
character, parsing the constructed request URL back recovers the original
query text in the `filter[text]` parameter. -/
theorem url_query_roundtrip (q : String) (_h0 : q ≠ "")
    (h1 : '&' ∉ q.toList) (h2 : '%' ∉ q.toList) (h3 : '#' ∉ q.toList) :
    getQueryParam (buildRequest q).url.toList "filter[text]".toList
      = some q.toList := by
  have hurl : (buildRequest q).url.toList
      = "https://kitsu.io/api/edge/anime".toList
        ++ '?' :: ("filter[text]".toList ++ '=' :: q.toList) := by
    show ("https://kitsu.io/api/edge/anime?filter[text]=".toList ++ q.toList) = _
    have hbase : "https://kitsu.io/api/edge/anime?filter[text]=".toList
        = "https://kitsu.io/api/edge/anime".toList
          ++ '?' :: ("filter[text]".toList ++ ['=']) := by decide
    rw [hbase]
    simp
  have hnoq : '?' ∉ "https://kitsu.io/api/edge/anime".toList := by decide
  have hrest : ∀ c : Char, c ∉ "filter[text]".toList → ¬ c = '=' → c ∉ q.toList →
      c ∉ "filter[text]".toList ++ '=' :: q.toList := by
    intro c hc1 hc2 hc3 hm
    rcases List.mem_append.mp hm with hA | hB
    · exact hc1 hA
    · rcases List.mem_cons.mp hB with he | hq
      · exact hc2 he
      · exact hc3 hq
  have hnohash : '#' ∉ "filter[text]".toList ++ '=' :: q.toList :=
    hrest '#' (by decide) (by decide) h3
  have hnoamp : '&' ∉ "filter[text]".toList ++ '=' :: q.toList :=
    hrest '&' (by decide) (by decide) h1
  rw [getQueryParam, queryPairs, hurl, splitFirst_append hnoq]
  simp only
  rw [splitFirst_of_not_mem hnohash]
  simp only
  rw [splitOnChar_of_not_mem hnoamp]
  simp only [List.map]
  rw [splitFirst_append (by decide : '=' ∉ "filter[text]".toList)]
  simp only
  simp only [Option.getD_some]
  rw [percentDecode_of_not_mem (by decide : '%' ∉ "filter[text]".toList),
    percentDecode_of_not_mem h2]
  simp [List.find?]

/-- C2 (witness): the amended round-trip at the concrete query "cowboy". -/
theorem url_query_roundtrip_witness :
    getQueryParam (buildRequest "cowboy").url.toList "filter[text]".toList
      = some "cowboy".toList :=
  url_query_roundtrip "cowboy" (by decide) (by decide) (by decide) (by decide)

/-- C3 (counterexample): with an out-of-range `selectedIndex` (`some 0`
against an empty results list) `render_details_tab` falls through its
inner bounds check and renders no widget at all — not the
"nothing selected" placeholder the claim requires. -/
theorem details_tab_out_of_range_no_placeholder :
    renderDetailsTab ⟨"", [], some 0, false⟩ = DetailsView.noneRendered ∧
    DetailsView.noneRendered ≠ DetailsView.placeholder :=
  ⟨rfl, by decide⟩

/-- C3 (amended): the "nothing selected" placeholder is rendered exactly
when `selectedIndex` is absent; an index that is present but out of range
renders nothing at all; a valid index renders the title, the combined
info line and the synopsis block (placeholder synopsis when absent). -/
theorem details_tab_dispatch (app : App) :
    (app.selected_anime_index = none → renderDetailsTab app = .placeholder) ∧
    (∀ i, app.selected_anime_index = some i →
      (app.search_results.length ≤ i → renderDetailsTab app = .noneRendered) ∧
      (∀ h : i < app.search_results.length,
        renderDetailsTab app =
          .details (app.search_results.get ⟨i, h⟩).attributes.cononical_title
            (String.intercalate " | "
              (infoSegments (app.search_results.get ⟨i, h⟩).attributes))
            ((app.search_results.get ⟨i, h⟩).attributes.synopsis.getD
              "No synopsis available."))) := by
  refine ⟨fun hn => ?_, fun i hi => ⟨fun hle => ?_, fun h => ?_⟩⟩
  · simp [renderDetailsTab, hn]
  · simp [renderDetailsTab, hi, Nat.not_lt.mpr hle]
  · simp [renderDetailsTab, hi, h]

/-- C3 (witness): the amended dispatch at a concrete state with no
selection. -/
theorem details_tab_dispatch_witness :
    renderDetailsTab ⟨"", [], none, false⟩ = DetailsView.placeholder :=
  (details_tab_dispatch ⟨"", [], none, false⟩).1 rfl

/-- C4: on an empty entry list the text renderer prints exactly the
"no results" notice — no header rule, no entry lines — for every
terminal width. -/
theorem empty_results_single_notice (width : Nat) :
    displayAnimeResults width [] = some ["No results found."] := rfl

/-- C5: for an entry whose `startDate` is present, both the text renderer
(its aired line) and the Details tab (its aired info segment) render
"`<start> to present`" when `endDate` is absent and "`<start> to <end>`"
when both dates are present. -/
theorem aired_line_rendering (a : AnimeData) (s : String)
    (hs : a.attributes.start_date = some s) :
    (a.attributes.end_date = none →
      (∀ w i ls, entryLines w i a = some ls →
        ("  Aired: " ++ s ++ " to present") ∈ ls) ∧
      ("Aired: " ++ s ++ " to present") ∈ infoSegments a.attributes) ∧
    (∀ e, a.attributes.end_date = some e →
      (∀ w i ls, entryLines w i a = some ls →
        ("  Aired: " ++ s ++ " to " ++ e) ∈ ls) ∧
      ("Aired: " ++ s ++ " to " ++ e) ∈ infoSegments a.attributes) := by
  obtain ⟨aid, t, syn, rat, sd, ed, stat, eps⟩ := a
  dsimp only at hs
  subst hs
  constructor
  · intro hend
    dsimp only at hend
    subst hend
    constructor
    · intro w i ls hls
      cases hsyn : syn with
      | none =>
        subst hsyn
        simp only [entryLines, Option.some.injEq] at hls
        subst hls
        simp [List.mem_append]
      | some sy =>
        subst hsyn
        cases hdisp : dispSynopsis w sy.data with
        | none =>
          simp [entryLines, String.toList, hdisp] at hls
        | some d =>
          simp only [entryLines, String.toList, hdisp, Option.map,
            Option.some.injEq] at hls
          subst hls
          simp [List.mem_append]
    · simp [infoSegments, List.mem_append]
  · intro e hend
    dsimp only at hend
    subst hend
    constructor
    · intro w i ls hls
      cases hsyn : syn with
      | none =>
        subst hsyn
        simp only [entryLines, Option.some.injEq] at hls
        subst hls
        simp [List.mem_append]
      | some sy =>
        subst hsyn
        cases hdisp : dispSynopsis w sy.data with
        | none =>
          simp [entryLines, String.toList, hdisp] at hls
        | some d =>
          simp only [entryLines, String.toList, hdisp, Option.map,
            Option.some.injEq] at hls
          subst hls
          simp [List.mem_append]
    · simp [infoSegments, List.mem_append]

/-- C5 (witness): the aired line for a concrete entry with `startDate`
present and `endDate` absent reads "Aired: 1998-04-03 to present" in the
Details tab's info segments. -/
theorem aired_line_rendering_witness :
    ("Aired: 1998-04-03 to present") ∈ infoSegments
      ⟨"Cowboy Bebop", none, none, some "1998-04-03", none, none, none⟩ :=
  ((aired_line_rendering
    ⟨"1", ⟨"Cowboy Bebop", none, none, some "1998-04-03", none, none, none⟩⟩
    "1998-04-03" rfl).1 rfl).2

/-- C6: for the Cowboy Bebop entry the text renderer prints, in list
order, the numbered title/id line, the rating line `82.4/100`, the
episode-count line `26`, the status line `finished`, and the aired range
`1998-04-03 to 1999-04-24`, between the header and separator rules, for
every terminal width. -/
theorem cowboy_bebop_report_lines (w : Nat) :
    displayAnimeResults w [cowboyBebop] =
      some ["\nSEARCH RESULTS:", rule '=' w, "1. Cowboy Bebop (ID: 1)",
        "  Rating: 82.4/100", "  Episodes: 26", "  Status: finished",
        "  Aired: 1998-04-03 to 1999-04-24", rule '-' w] := rfl

/-- C7: `render_search_tab` precedence — while loading only the loading
indicator is shown; otherwise with empty results a help text whose
message depends on whether the query text is empty; otherwise the
selectable list of `title (+ rating)` items with `selectedIndex`
highlighted. -/
theorem search_tab_precedence (app : App) :
    (app.loading = true → renderSearchTab app = .loadingIndicator) ∧
    (app.loading = false → app.search_results = [] → app.input = "" →
      renderSearchTab app = .helpText
        "Press 'e' to endter search mode, type your query, and press Enter to search.") ∧
    (app.loading = false → app.search_results = [] → app.input ≠ "" →
      renderSearchTab app = .helpText
        "No results found. Try a different search term.") ∧
    (app.loading = false → app.search_results ≠ [] →
      renderSearchTab app =
        .resultList (app.search_results.map searchListItem)
          app.selected_anime_index) := by
  refine ⟨fun hl => ?_, fun hl hr hi => ?_, fun hl hr hi => ?_, fun hl hr => ?_⟩
  · simp [renderSearchTab, hl]
  · simp [renderSearchTab, hl, hr, hi, String.isEmpty_iff]
  · have hin : ¬ app.input.isEmpty := by
      simpa [String.isEmpty_iff] using hi
    simp [renderSearchTab, hl, hr, hin]
  · have hres : ¬ app.search_results.isEmpty := by
      simpa [List.isEmpty_iff] using hr
    simp [renderSearchTab, hl, hres]

/-- C7 (witness): the loading state at a concrete app value. -/
theorem search_tab_precedence_witness :
    renderSearchTab ⟨"", [], none, true⟩ = SearchView.loadingIndicator :=
  (search_tab_precedence ⟨"", [], none, true⟩).1 rfl

/-- C8: `search_anime` issues exactly one request (never retried) and
returns an error exactly when the transport fails (a `Transport` error
with the request-send context) or the body fails to deserialize (a
`Decode` error with the parse context); otherwise it returns the
deserialized response. -/
theorem search_error_semantics (net : Request → Except String Json) (q : String) :
    (searchAnime net q).1 = [buildRequest q] ∧
    (∀ e, net (buildRequest q) = .error e →
      (searchAnime net q).2 =
        .error (.transport ("Failed to send request to kitsu API: " ++ e))) ∧
    (∀ body e, net (buildRequest q) = .ok body →
      decodeAnimeResponse body = .error e →
      (searchAnime net q).2 =
        .error (.decode ("Failed to parse anime data: " ++ e))) ∧
    (∀ body r, net (buildRequest q) = .ok body →
      decodeAnimeResponse body = .ok r →
      (searchAnime net q).2 = .ok r) := by
  refine ⟨rfl, fun e he => ?_, fun body e hb hd => ?_, fun body r hb hd => ?_⟩
  · simp [searchAnime, he]
  · simp [searchAnime, hb, hd]
  · simp [searchAnime, hb, hd]

/-- C8 (witness): a transport failure surfaces as a `Transport` error. -/
theorem search_error_semantics_witness :
    (searchAnime (fun _ => .error "connection refused") "q").2 =
      .error (.transport ("Failed to send request to kitsu API: "
        ++ "connection refused")) :=
  (search_error_semantics (fun _ => .error "connection refused") "q").2.1
    "connection refused" rfl

/-- C9: every search issues a single GET request to the fixed
`/api/edge/anime` endpoint with the query embedded after `filter[text]=`,
carrying `Accept` and `Content-Type` headers equal to
`application/vnd.api+json`. -/
theorem single_get_request_shape (net : Request → Except String Json) (q : String) :
    (searchAnime net q).1 = [buildRequest q] ∧
    (buildRequest q).method = "GET" ∧
    (buildRequest q).url = "https://kitsu.io/api/edge/anime?filter[text]=" ++ q ∧
    ("Accept", "application/vnd.api+json") ∈ (buildRequest q).headers ∧
    ("Content-Type", "application/vnd.api+json") ∈ (buildRequest q).headers :=
  ⟨rfl, rfl, rfl, by simp [buildRequest], by simp [buildRequest]⟩

/-- C10: deserialization only accepts `episodeCount` values representable
in 16 bits — an attributes object whose `episodeCount` is an integer
above 65535 never decodes successfully, and a full response carrying
such a value is rejected by `search_anime` as a `Decode` error, while the
same response with `episodeCount = 26` yields the entry list. -/
theorem episode_count_over_u16_rejected (n : Int) (h : 65535 < n) :
    (∀ fields a, jLookup fields "episodeCount" = some (.num n) →
      decodeAnimeAttributes (.obj fields) ≠ .ok a) ∧
    (searchAnime (fun _ => .ok (responseWithEpisodeCount 70000)) "q").2 =
      .error (.decode ("Failed to parse anime data: "
        ++ "invalid value for u16 field episodeCount")) ∧
    (searchAnime (fun _ => .ok (responseWithEpisodeCount 26)) "q").2 =
      .ok ⟨[⟨"1", ⟨"Cowboy Bebop", none, none, none, none, none, some 26⟩⟩]⟩ := by
  refine ⟨?_, rfl, rfl⟩
  intro fields a hf hok
  have hnot : ¬ (0 ≤ n ∧ n < 65536) := by omega
  have hu : decodeOptU16 fields "episodeCount"
      = .error ("invalid value for u16 field episodeCount") := by
    rw [decodeOptU16, hf]
    simp [hnot]
  simp only [decodeAnimeAttributes, bind, Except.bind] at hok
  cases h1 : decodeReqString fields "canonicalTitle" with
  | error e => rw [h1] at hok; simp at hok
  | ok v1 =>
    rw [h1] at hok
    cases h2 : decodeOptString fields "synopsis" with
    | error e => rw [h2] at hok; simp at hok
    | ok v2 =>
      rw [h2] at hok
      cases h3 : decodeOptString fields "averageRating" with
      | error e => rw [h3] at hok; simp at hok
      | ok v3 =>
        rw [h3] at hok
        cases h4 : decodeOptString fields "startDate" with
        | error e => rw [h4] at hok; simp at hok
        | ok v4 =>
          rw [h4] at hok
          cases h5 : decodeOptString fields "endDate" with
          | error e => rw [h5] at hok; simp at hok
          | ok v5 =>
            rw [h5] at hok
            cases h6 : decodeOptString fields "status" with
            | error e => rw [h6] at hok; simp at hok
            | ok v6 =>
              rw [h6] at hok
              rw [hu] at hok
              simp at hok

/-- C10 (witness): `episodeCount = 70000` never decodes to attributes. -/
theorem episode_count_over_u16_rejected_witness :
    decodeAnimeAttributes (.obj [("canonicalTitle", .str "Cowboy Bebop"),
        ("episodeCount", .num 70000)])
      ≠ .ok ⟨"Cowboy Bebop", none, none, none, none, none, some 700⟩ :=
  (episode_count_over_u16_rejected 70000 (by decide)).1 _ _ rfl
